import Mathlib

/-!
Verification of the payment-forwarding agent in `app.py` / `app2.py`
(repository `stellar_send_xlm_on_payment`).

The development shallowly embeds the parts of the two scripts that the
specification's claims talk about:

* the amount computation (`app.py` uses `Decimal` with `ROUND_DOWN`
  quantization to 7 fractional digits; `app2.py` uses float `round(_, 7)`,
  i.e. round-half-to-even), modelled over `ℚ`;
* the event filter `handle_payment` of each script;
* the retry / fee-escalation recursion `send_payment`, driven by an explicit
  list of submission outcomes (the environment's script);
* the main-loop bodies, including the fact that `app.py` calls a
  `save_cursor` function that is defined nowhere in the file.
-/

/-- Truncation of a rational toward zero, as an integer.  This is the
integer core of Python `Decimal.quantize(..., rounding=ROUND_DOWN)`
(`ROUND_DOWN` rounds toward zero). -/
def truncZ (q : ℚ) : ℤ := q.num.tdiv (q.den : ℤ)

/-- `app.py` lines 156–158: `(x).quantize(Decimal("0.0000001"), rounding=ROUND_DOWN)`:
truncate toward zero to 7 fractional digits. -/
def quantize7_round_down (x : ℚ) : ℚ := (truncZ (x * 10 ^ 7) : ℚ) / 10 ^ 7

/-- Round a rational to the nearest integer, ties to even — the rounding
Python's `round` applies to the (exact) value of its argument. -/
def roundHalfEvenZ (q : ℚ) : ℤ :=
  if Int.fract q < 1 / 2 then ⌊q⌋
  else if (1 / 2 : ℚ) < Int.fract q then ⌊q⌋ + 1
  else if ⌊q⌋ % 2 = 0 then ⌊q⌋ else ⌊q⌋ + 1

/-- `app2.py` line 165: `round(x, 7)` — round to 7 fractional digits,
ties to even (Python banker's rounding), modelled on exact rationals. -/
def round7 (x : ℚ) : ℚ := (roundHalfEvenZ (x * 10 ^ 7) : ℚ) / 10 ^ 7

/-- `SEND_PERCENT = Decimal("0.25")` (app.py line 31) / `0.25` (app2.py line 32). -/
def SEND_PERCENT : ℚ := 25 / 100

/-- `MIN_INCOMING_XLM = Decimal("0")` (app.py line 32) / `0` (app2.py line 33). -/
def MIN_INCOMING_XLM : ℚ := 0

/-- A payment event as observed on the Horizon stream; fields the scripts
read with `.get(...)` are `Option`-valued (absent key ⇒ `none`); the numeric
`amount` string is modelled by the exact rational it denotes. -/
structure PaymentEvent where
  type : Option String
  asset_type : Option String
  from_ : Option String
  to_ : Option String
  amount : Option ℚ
  transaction_successful : Option Bool
  paging_token : String
deriving DecidableEq, Repr

/-- `app.py` lines 156–158: the amount forwarded for a given incoming amount —
`(incoming * SEND_PERCENT).quantize(Decimal("0.0000001"), rounding=ROUND_DOWN)`. -/
def app_send_amount (incoming : ℚ) : ℚ := quantize7_round_down (incoming * SEND_PERCENT)

/-- `app2.py` line 165: `round(incoming * SEND_PERCENT, 7)`. -/
def app2_send_amount (incoming : ℚ) : ℚ := round7 (incoming * SEND_PERCENT)

/-- `app.py` lines 136–170, `handle_payment`: the event filter plus amount
computation.  Returns the forward instruction `(RECEIVER_ADDRESS, send_amount)`
handed to `send_payment`, or `none` when the function returns early (in which
case nothing is printed, no log file is created and no submission happens).
The guards appear in source order: `type`, `transaction_successful` (with
`.get(..., False)`), `asset_type`, `to`, `from`, then the minimum-amount
threshold and the positivity check on the computed amount. -/
def app_handle_payment (DISTRIBUTOR_ADDRESS RECEIVER_ADDRESS : String)
    (payment : PaymentEvent) : Option (String × ℚ) :=
  if payment.type ≠ some "payment" then none
  else if ¬ payment.transaction_successful.getD false then none
  else if payment.asset_type ≠ some "native" then none
  else if payment.to_ ≠ some DISTRIBUTOR_ADDRESS then none
  else if payment.from_ = some DISTRIBUTOR_ADDRESS then none
  else
    let incoming := payment.amount.getD 0
    if incoming < MIN_INCOMING_XLM then none
    else
      let send_amount := app_send_amount incoming
      if send_amount ≤ 0 then none
      else some (RECEIVER_ADDRESS, send_amount)

/-- `app2.py` lines 144–181, `handle_payment`.  Identical guard chain except
that `app2.py` never inspects `transaction_successful`, and the amount is
computed with float `round(incoming * SEND_PERCENT, 7)` instead of `Decimal`
truncation. -/
def app2_handle_payment (DISTRIBUTOR_ADDRESS RECEIVER_ADDRESS : String)
    (payment : PaymentEvent) : Option (String × ℚ) :=
  if payment.type ≠ some "payment" then none
  else if payment.asset_type ≠ some "native" then none
  else if payment.to_ ≠ some DISTRIBUTOR_ADDRESS then none
  else if payment.from_ = some DISTRIBUTOR_ADDRESS then none
  else
    let incoming := payment.amount.getD 0
    if incoming < MIN_INCOMING_XLM then none
    else
      let send_amount := app2_send_amount incoming
      if send_amount ≤ 0 then none
      else some (RECEIVER_ADDRESS, send_amount)

/-- Classification of what one submission attempt inside `send_payment`'s
`try` block produced, mirroring the `except` dispatch of `app.py`
lines 83–131 / `app2.py` lines 89–142:
`success` — `response.get("successful")` truthy;
`unsuccessfulResponse` — submission returned but the flag is falsy
(logged as failed with the raw response text, no retry);
`http504` — an exception with `status == 504`;
`badSeq` / `tooLate` / `insufficientFee` — an exception whose
`result_codes.transaction` is `tx_bad_seq` / `tx_too_late` /
`tx_insufficient_fee`;
`underfunded` — `tx_failed` with first operation code `op_underfunded`;
`otherError` — any other exception (logged with `str(e)`). -/
inductive SubmitOutcome where
  | success
  | unsuccessfulResponse (resp : String)
  | http504
  | badSeq
  | tooLate
  | insufficientFee
  | underfunded
  | otherError (msg : String)
deriving DecidableEq, Repr

/-- Terminal result of one `send_payment` call tree. -/
inductive DispatchResult where
  | succeeded
  | permanentlyFailed (reason : String)
  | outOfScript
deriving DecidableEq, Repr

/-- `app.py` lines 59–131 / `app2.py` lines 59–142, `send_payment`, embedded
against an explicit script of submission outcomes: the `n`-th list element is
what the `n`-th submission attempt produced (an empty script while the
function would still attempt yields `outOfScript`).  The first component is
the list of `min_gas_fee` values (the fee floor held in the retry state; the
fee actually placed on the wire is `max(fetch_base_fee(), min_gas_fee)`) of
every attempt performed, in order.  Note that the three purely transient
branches (`http504`, `badSeq`, `tooLate`) recurse as
`send_payment(log_filename, destination_address, amount)` — without the
`min_gas_fee` argument — so the fee floor falls back to the default `100`;
only the `tx_insufficient_fee` branch passes `min_gas_fee * 2`, and only
while `min_gas_fee < 2000`. -/
def send_payment : ℕ → List SubmitOutcome → List ℕ × DispatchResult
  | _, [] => ([], .outOfScript)
  | min_gas_fee, o :: rest =>
    match o with
    | .success => ([min_gas_fee], .succeeded)
    | .unsuccessfulResponse resp => ([min_gas_fee], .permanentlyFailed resp)
    | .http504 =>
        let p := send_payment 100 rest
        (min_gas_fee :: p.1, p.2)
    | .badSeq =>
        let p := send_payment 100 rest
        (min_gas_fee :: p.1, p.2)
    | .tooLate =>
        let p := send_payment 100 rest
        (min_gas_fee :: p.1, p.2)
    | .insufficientFee =>
        if min_gas_fee < 2000 then
          let p := send_payment (min_gas_fee * 2) rest
          (min_gas_fee :: p.1, p.2)
        else ([min_gas_fee], .permanentlyFailed "Network busy: insufficient fee")
    | .underfunded => ([min_gas_fee], .permanentlyFailed "Insufficient XLM balance")
    | .otherError msg => ([min_gas_fee], .permanentlyFailed msg)

/-- The complete set of names bound at module level in `app.py`: the
imported names (lines 1–8), the module constants and objects
(lines 13–43), and the three functions plus `main` (lines 48, 59, 136, 175).
`save_cursor` is not among them: the file defines no such function, so the
call `save_cursor(cursor)` at line 188 raises `NameError` at run time. -/
def app_py_globals : List String :=
  ["configparser", "os", "sys", "time", "datetime", "Decimal", "ROUND_DOWN",
   "Server", "Keypair", "TransactionBuilder", "Network", "Asset",
   "config", "DISTRIBUTOR_SECRET_KEY", "RECEIVER_ADDRESS",
   "HORIZON_URL", "SEND_PERCENT", "MIN_INCOMING_XLM", "CURSOR_FILE",
   "server", "DISTRIBUTOR_KP", "DISTRIBUTOR_ADDRESS",
   "log_result", "send_payment", "handle_payment", "main"]

/-- Result of one iteration of `app.py`'s inner `for` body
(lines 186–189).  `raisedNameError c` records that an uncaught `NameError`
escaped the body after the in-memory `cursor` variable was assigned `c`;
`handled c f` would record a completed iteration with forward decision `f`. -/
inductive AppBodyResult where
  | raisedNameError (cursorAfter : String)
  | handled (cursorAfter : String) (forward : Option (String × ℚ))
deriving DecidableEq, Repr

/-- `app.py` lines 186–189, the body run for each streamed event:
`cursor = payment["paging_token"]`, then `save_cursor(cursor)`, then
`handle_payment(payment)`.  Python resolves `save_cursor` against the module
globals at call time; the name is absent from `app_py_globals`, so the call
raises `NameError` after the cursor assignment and before `handle_payment`. -/
def app_main_body (DISTRIBUTOR_ADDRESS RECEIVER_ADDRESS : String)
    (payment : PaymentEvent) : AppBodyResult :=
  let cursor := payment.paging_token
  if "save_cursor" ∈ app_py_globals then
    .handled cursor (app_handle_payment DISTRIBUTOR_ADDRESS RECEIVER_ADDRESS payment)
  else
    .raisedNameError cursor

/-- `app.py` lines 182–193, the `while True` loop, run over a finite prefix
of the stream.  An exception escaping the body is caught by the `except` at
lines 191–193, which logs, sleeps and re-enters the loop, reopening the
stream from the current in-memory cursor; the remaining events are then
re-delivered.  Returns the final in-memory cursor and the list of forward
instructions dispatched. -/
def app_main_loop (DISTRIBUTOR_ADDRESS RECEIVER_ADDRESS : String) :
    String → List PaymentEvent → String × List (String × ℚ)
  | cursor, [] => (cursor, [])
  | _cursor, payment :: rest =>
    match app_main_body DISTRIBUTOR_ADDRESS RECEIVER_ADDRESS payment with
    | .raisedNameError c => app_main_loop DISTRIBUTOR_ADDRESS RECEIVER_ADDRESS c rest
    | .handled c f =>
        let p := app_main_loop DISTRIBUTOR_ADDRESS RECEIVER_ADDRESS c rest
        (p.1, f.toList ++ p.2)
  termination_by _cursor events => events.length

/-- `app2.py` lines 189–190, the body run for each streamed event: it calls
only `handle_payment(payment)`; the `cursor` variable (set to `"now"` at
line 184) is never reassigned and nothing is ever persisted.  Returns the
(unchanged) in-memory cursor and the forward decision. -/
def app2_main_body (DISTRIBUTOR_ADDRESS RECEIVER_ADDRESS cursor : String)
    (payment : PaymentEvent) : String × Option (String × ℚ) :=
  (cursor, app2_handle_payment DISTRIBUTOR_ADDRESS RECEIVER_ADDRESS payment)

/-- Modelled from the spec (§4.1): the Cursor Tracker's `save` operation.
Neither script implements it — `app.py` only calls an undefined
`save_cursor` (line 188) and declares an unused `CURSOR_FILE` constant
(line 34); `app2.py` has no persistence at all.  Storage is a single
optional persisted value; `save` durably overwrites it. -/
def save_cursor (c : String) (_store : Option String) : Option String := some c

/-- Modelled from the spec (§4.1): the Cursor Tracker's `load` operation —
returns the last persisted cursor, or the sentinel `"now"` if none exists. -/
def load_cursor (store : Option String) : String := store.getD "now"

/-- The §4.3 amount function written from the spec's words, for refinement
comparison: multiply by the fraction and truncate toward zero at 7
fractional digits. -/
def spec_compute (fraction a : ℚ) : ℚ := (truncZ (a * fraction * 10 ^ 7) : ℚ) / 10 ^ 7

/-- The set of fee-floor values reachable by `send_payment` when started from
the default `min_gas_fee = 100`. -/
def feeValues : List ℕ := [100, 200, 400, 800, 1600, 3200]

/-- The spec's §8 end-to-end event: a settled 100 XLM native payment into the
distributor `"GDIST"` from a third party `"GSRC"`. -/
def ev100 : PaymentEvent :=
  { type := some "payment", asset_type := some "native",
    from_ := some "GSRC", to_ := some "GDIST",
    amount := some 100, transaction_successful := some true,
    paging_token := "42" }

/-- `ev100`, except the transaction is not settled/successful on the ledger. -/
def ev_unsettled : PaymentEvent := { ev100 with transaction_successful := some false }

/-- `ev100`, except it is a self-payment from the distributor. -/
def ev_self : PaymentEvent := { ev100 with from_ := some "GDIST" }

/-- `ev100`, except the incoming amount is `"0.0000003"`. -/
def ev_tiny : PaymentEvent := { ev100 with amount := some (3 / 10 ^ 7) }

/-- Invariant of the retry recursion: starting from a fee floor in
`feeValues`, every attempted fee floor stays in `feeValues` (transient
branches reset to 100; the fee-too-low branch doubles only below 2000). -/
theorem send_payment_fees_bounded (fee : ℕ) (outcomes : List SubmitOutcome)
    (hfee : fee ∈ feeValues) :
    ∀ f ∈ (send_payment fee outcomes).1, f ∈ feeValues := by
  induction outcomes generalizing fee with
  | nil => intro f hf; simp [send_payment] at hf
  | cons o rest ih =>
    intro f hf
    cases o with
    | success => simp [send_payment] at hf; exact hf ▸ hfee
    | unsuccessfulResponse resp => simp [send_payment] at hf; exact hf ▸ hfee
    | underfunded => simp [send_payment] at hf; exact hf ▸ hfee
    | otherError msg => simp [send_payment] at hf; exact hf ▸ hfee
    | http504 =>
        simp [send_payment] at hf
        rcases hf with hf | hf
        · exact hf ▸ hfee
        · exact ih 100 (by decide) f hf
    | badSeq =>
        simp [send_payment] at hf
        rcases hf with hf | hf
        · exact hf ▸ hfee
        · exact ih 100 (by decide) f hf
    | tooLate =>
        simp [send_payment] at hf
        rcases hf with hf | hf
        · exact hf ▸ hfee
        · exact ih 100 (by decide) f hf
    | insufficientFee =>
        by_cases hlt : fee < 2000
        · simp [send_payment, hlt] at hf
          rcases hf with hf | hf
          · exact hf ▸ hfee
          · refine ih (fee * 2) ?_ f hf
            fin_cases hfee <;> simp_all [feeValues]
        · simp [send_payment, hlt] at hf
          exact hf ▸ hfee

/-- C1: the claim that the fee floor is monotonically non-decreasing across
the attempts of one `send_payment` invocation, and that purely transient
retries reuse the failed attempt's fee, is false: after a fee-too-low retry
raised the fee to 200, a gateway timeout (HTTP 504) retries at the default
100, so the attempted fee floors are `[100, 200, 100]` — not non-decreasing,
and the transient retry did not reuse fee 200. -/
theorem C1_counterexample :
    (send_payment 100
        [.insufficientFee, .http504, .success]).1 = [100, 200, 100] ∧
    ¬ List.Sorted (· ≤ ·)
        (send_payment 100 [.insufficientFee, .http504, .success]).1 := by
  have h : (send_payment 100
      [.insufficientFee, .http504, .success]).1 = [100, 200, 100] := by decide
  exact ⟨h, h ▸ by decide⟩

/-- C1 (amended): within one `send_payment` invocation the fee floor doubles
on each under-cap fee-too-low retry, but every purely transient retry
(gateway timeout, bad sequence number, deadline exceeded) calls
`send_payment` without the `min_gas_fee` argument, resetting the fee floor
to the default 100 rather than reusing the failed attempt's fee; hence the
fee is not monotone across attempts and a transient retry reuses the failed
fee only when that fee was already 100. -/
theorem C1_transient_resets_fee (fee : ℕ) (rest : List SubmitOutcome) :
    send_payment fee (.http504 :: rest)
      = (fee :: (send_payment 100 rest).1, (send_payment 100 rest).2) ∧
    send_payment fee (.badSeq :: rest)
      = (fee :: (send_payment 100 rest).1, (send_payment 100 rest).2) ∧
    send_payment fee (.tooLate :: rest)
      = (fee :: (send_payment 100 rest).1, (send_payment 100 rest).2) := by
  refine ⟨?_, ?_, ?_⟩ <;> simp [send_payment]

/-- C4: starting from the default fee floor 100, three consecutive
`tx_insufficient_fee` responses are attempted at fee floors 100, 200, 400 in
that order; and whenever a `tx_insufficient_fee` response arrives while the
fee floor is at least 2000, the invocation terminates immediately as a
permanent failure ("Network busy: insufficient fee") with no further attempt
regardless of what the environment would answer next. -/
theorem C4_fee_escalation (fee : ℕ) (rest : List SubmitOutcome)
    (h : 2000 ≤ fee) :
    (send_payment 100
        [.insufficientFee, .insufficientFee, .insufficientFee]).1
      = [100, 200, 400] ∧
    send_payment fee (.insufficientFee :: rest)
      = ([fee], .permanentlyFailed "Network busy: insufficient fee") := by
  have hn : ¬ fee < 2000 := by omega
  exact ⟨by decide, by simp [send_payment, hn]⟩

/-- Witness for C4 at fee 2000 with an empty continuation script. -/
theorem C4_fee_escalation_witness :
    2000 ≤ 2000 ∧
    ((send_payment 100
        [.insufficientFee, .insufficientFee, .insufficientFee]).1
      = [100, 200, 400] ∧
     send_payment 2000 [.insufficientFee]
      = ([2000], .permanentlyFailed "Network busy: insufficient fee")) :=
  ⟨le_refl 2000, C4_fee_escalation 2000 [] (le_refl 2000)⟩

/-- C7: a submission failure classified as underfunded source account
(`tx_failed` with `op_underfunded`), or any unclassified error, is terminal:
exactly one attempt is performed (the fee trace is the singleton of the
current fee), the rest of the environment script is never consulted, and the
invocation ends permanently failed with the corresponding logged reason. -/
theorem C7_terminal_failures (fee : ℕ) (rest : List SubmitOutcome)
    (msg : String) :
    send_payment fee (.underfunded :: rest)
      = ([fee], .permanentlyFailed "Insufficient XLM balance") ∧
    send_payment fee (.otherError msg :: rest)
      = ([fee], .permanentlyFailed msg) := by
  constructor <;> simp [send_payment]

/-- C10: across the recursive lifetime of a `send_payment` invocation started
at the default fee floor 100, the `min_gas_fee` argument of every attempt
lies in `{100, 200, 400, 800, 1600, 3200}` — and the value 3200, one
doubling beyond the 2000 cap, is actually reached under six consecutive
fee-too-low responses, but no larger value ever occurs. -/
theorem C10_fee_floor_values (outcomes : List SubmitOutcome) :
    (∀ f ∈ (send_payment 100 outcomes).1,
        f ∈ [100, 200, 400, 800, 1600, 3200]) ∧
    (send_payment 100
        (List.replicate 6 SubmitOutcome.insufficientFee)).1
      = [100, 200, 400, 800, 1600, 3200] := by
  exact ⟨send_payment_fees_bounded 100 outcomes (by decide), by decide⟩

/-- Witness for C10: the bound applied at a concrete one-attempt script. -/
theorem C10_fee_floor_values_witness :
    100 ∈ (send_payment 100 [SubmitOutcome.success]).1 ∧
    100 ∈ [100, 200, 400, 800, 1600, 3200] :=
  ⟨by decide, (C10_fee_floor_values [SubmitOutcome.success]).1 100 (by decide)⟩

/-- C2 (counterexample): `app2.py`'s event filter accepts — and dispatches a
forward for — an event that is not marked settled/successful on the ledger
(`transaction_successful = false`), violating the settled/successful
predicate while all other predicates hold: the script never inspects that
field. -/
theorem C2_counterexample :
    ev_unsettled.transaction_successful = some false ∧
    app2_handle_payment "GDIST" "GRECV" ev_unsettled = some ("GRECV", 25) := by
  constructor
  · rfl
  · have hamt : app2_send_amount 100 = 25 := by
      norm_num [app2_send_amount, round7, roundHalfEvenZ, SEND_PERCENT, Int.fract]
    simp [app2_handle_payment, ev_unsettled, ev100, MIN_INCOMING_XLM, hamt]

/-- C2 (amended): `app.py`'s `handle_payment` computes an amount and
dispatches a forward iff all six §4.2 predicates hold and, additionally, the
truncated forward amount is positive; `app2.py`'s `handle_payment` never
checks the settled/successful predicate — it dispatches iff the other five
predicates hold and the rounded forward amount is positive. -/
theorem C2_filter_predicates (d r : String) (p : PaymentEvent) :
    ((app_handle_payment d r p).isSome ↔
      (p.type = some "payment" ∧
       p.transaction_successful.getD false = true ∧
       p.asset_type = some "native" ∧
       p.to_ = some d ∧
       p.from_ ≠ some d ∧
       MIN_INCOMING_XLM ≤ p.amount.getD 0 ∧
       0 < app_send_amount (p.amount.getD 0))) ∧
    ((app2_handle_payment d r p).isSome ↔
      (p.type = some "payment" ∧
       p.asset_type = some "native" ∧
       p.to_ = some d ∧
       p.from_ ≠ some d ∧
       MIN_INCOMING_XLM ≤ p.amount.getD 0 ∧
       0 < app2_send_amount (p.amount.getD 0))) := by
  constructor
  · simp only [app_handle_payment]
    split_ifs with h1 h2 h3 h4 h5 h6 h7 <;> simp_all [not_lt, not_le]
  · simp only [app2_handle_payment]
    split_ifs with h1 h2 h3 h4 h5 h6 <;> simp_all [not_lt, not_le]

/-- Toward-zero truncation agrees with the floor on nonnegative rationals. -/
theorem truncZ_eq_floor (q : ℚ) (hq : 0 ≤ q) : truncZ q = ⌊q⌋ := by
  rw [truncZ, Rat.floor_def]
  exact Int.tdiv_eq_ediv (Rat.num_nonneg.2 hq) (by positivity)

/-- Truncating a nonnegative rational down to 7 fractional digits never
increases it. -/
theorem quantize7_round_down_le (x : ℚ) (hx : 0 ≤ x) :
    quantize7_round_down x ≤ x := by
  rw [quantize7_round_down, truncZ_eq_floor _ (by positivity)]
  rw [div_le_iff₀ (by norm_num : (0:ℚ) < 10 ^ 7)]
  exact Int.floor_le _

/-- C3 (amended): `app.py`'s amount computation returns exactly the spec's
`truncate(a * fraction, 7 fractional digits)` (truncation toward zero) and
never exceeds `a * fraction` for the nonnegative amounts that reach it;
`app2.py`'s float `round(a * fraction, 7)` rounds to nearest (ties to even)
instead and can exceed `a * fraction`. -/
theorem C3_compute_truncates (a : ℚ) (ha : 0 ≤ a) :
    app_send_amount a = spec_compute SEND_PERCENT a ∧
    app_send_amount a ≤ a * SEND_PERCENT := by
  refine ⟨rfl, ?_⟩
  exact quantize7_round_down_le _ (mul_nonneg ha (by norm_num [SEND_PERCENT]))

/-- Witness for C3 at the incoming amount 100. -/
theorem C3_compute_truncates_witness :
    (0:ℚ) ≤ 100 ∧
    (app_send_amount 100 = spec_compute SEND_PERCENT 100 ∧
     app_send_amount 100 ≤ 100 * SEND_PERCENT) :=
  ⟨by norm_num, C3_compute_truncates 100 (by norm_num)⟩

/-- C3 (counterexample): at the incoming amount `2^-22` (exactly
representable as a float, so `app2.py` computes the same value), `app2.py`'s
calculator returns `0.0000001`, strictly more than
`a * fraction = 2^-24 ≈ 0.0000000596`, while truncation returns `0`: the
computed forward amount exceeds `a * fraction`, so the calculator does not
truncate and does round up. -/
theorem C3_counterexample :
    app2_send_amount (1 / 2 ^ 22) = 1 / 10 ^ 7 ∧
    (1 / 2 ^ 22 : ℚ) * SEND_PERCENT < app2_send_amount (1 / 2 ^ 22) ∧
    spec_compute SEND_PERCENT (1 / 2 ^ 22) = 0 := by
  have h : app2_send_amount (1 / 2 ^ 22) = 1 / 10 ^ 7 := by
    norm_num [app2_send_amount, round7, roundHalfEvenZ, SEND_PERCENT, Int.fract]
  refine ⟨h, ?_, ?_⟩
  · rw [h]; norm_num [SEND_PERCENT]
  · norm_num [spec_compute, truncZ, SEND_PERCENT]
    decide

/-- Evaluation of `app2.py`'s calculator at the spec's 100 XLM scenario. -/
theorem app2_send_amount_100 : app2_send_amount 100 = 25 := by
  norm_num [app2_send_amount, round7, roundHalfEvenZ, SEND_PERCENT, Int.fract]

/-- Evaluation of `app.py`'s calculator at the spec's 100 XLM scenario. -/
theorem app_send_amount_100 : app_send_amount 100 = 25 := by
  norm_num [app_send_amount, quantize7_round_down, truncZ, SEND_PERCENT]

/-- Evaluation of `app.py`'s calculator at the spec's tiny-amount scenario:
`0.0000003 * 0.25` truncates to `0`. -/
theorem app_send_amount_tiny : app_send_amount (3 / 10 ^ 7) = 0 := by
  norm_num [app_send_amount, quantize7_round_down, truncZ, SEND_PERCENT]
  decide

/-- C8 (counterexample): on the incoming amount `"0.0000003"` at fraction
0.25, `app2.py` does not treat the result as "no forward": its rounding
yields `0.0000001 > 0` and a forward of `0.0000001` to the receiver is
dispatched. -/
theorem C8_counterexample :
    app2_handle_payment "GDIST" "GRECV" ev_tiny = some ("GRECV", 1 / 10 ^ 7) := by
  have hamt : app2_send_amount (3 / 10 ^ 7) = 1 / 10 ^ 7 := by
    norm_num [app2_send_amount, round7, roundHalfEvenZ, SEND_PERCENT, Int.fract]
  simp [app2_handle_payment, ev_tiny, ev100, MIN_INCOMING_XLM, hamt]
  norm_num

/-- C8 (amended): the end-to-end scenario holds in full for `app.py` — the
settled 100 XLM native payment into the distributor from a third party
produces the forward instruction `(RECEIVER, 25)`, a self-payment from the
distributor is ignored entirely (early return: no forward, no log entry),
and the incoming amount `"0.0000003"` truncates to 0 and is treated as "no
forward", not an error.  In `app2.py` the first two parts hold, but the tiny
amount is rounded up to `0.0000001` and forwarded (see the counterexample). -/
theorem C8_end_to_end :
    app_handle_payment "GDIST" "GRECV" ev100 = some ("GRECV", 25) ∧
    app_handle_payment "GDIST" "GRECV" ev_self = none ∧
    app_handle_payment "GDIST" "GRECV" ev_tiny = none ∧
    app2_handle_payment "GDIST" "GRECV" ev100 = some ("GRECV", 25) ∧
    app2_handle_payment "GDIST" "GRECV" ev_self = none := by
  refine ⟨?_, ?_, ?_, ?_, ?_⟩
  · simp [app_handle_payment, ev100, MIN_INCOMING_XLM, app_send_amount_100]
  · simp [app_handle_payment, ev_self, ev100]
  · simp [app_handle_payment, ev_tiny, ev100, MIN_INCOMING_XLM, app_send_amount_tiny]
  · simp [app2_handle_payment, ev100, MIN_INCOMING_XLM, app2_send_amount_100]
  · simp [app2_handle_payment, ev_self, ev100]

/-- C6: the Cursor Tracker round-trip law — `save` then `load` returns
exactly the saved cursor, and `load` on empty storage returns the sentinel
`"now"` (modelled from the spec, §4.1: neither script implements the
tracker). -/
theorem C6_cursor_round_trip (c : String) (s : Option String) :
    load_cursor (save_cursor c s) = c ∧ load_cursor none = "now" :=
  ⟨rfl, rfl⟩

/-- C9: in `app.py`, every streamed payment event's loop body raises
`NameError` at the `save_cursor` call (the name is bound nowhere in the
module) after the in-memory cursor assignment and before `handle_payment`
runs, the exception is caught by the loop's top-level handler, and over any
finite stream prefix no forward is ever dispatched by the script. -/
theorem C9_save_cursor_name_error (d r c : String) (events : List PaymentEvent) :
    (∀ p : PaymentEvent, app_main_body d r p = .raisedNameError p.paging_token) ∧
    (app_main_loop d r c events).2 = [] := by
  have hbody : ∀ p : PaymentEvent,
      app_main_body d r p = .raisedNameError p.paging_token := by
    intro p
    simp [app_main_body, app_py_globals]
  refine ⟨hbody, ?_⟩
  induction events generalizing c with
  | nil => simp [app_main_loop]
  | cons p rest ih =>
      rw [app_main_loop, hbody p]
      exact ih _

/-- C5: evaluation at a concrete streamed event showing that neither script
persists the cursor after an event is observed: `app.py` raises `NameError`
at the undefined `save_cursor` (so nothing is persisted and the filter is
never reached), and `app2.py` completes the event — even dispatching a
forward — with its in-memory cursor still the startup value `"now"` and no
persistence of any kind. -/
theorem C5_no_cursor_persistence :
    app_main_body "GDIST" "GRECV" ev100 = .raisedNameError "42" ∧
    app2_main_body "GDIST" "GRECV" "now" ev100 = ("now", some ("GRECV", 25)) := by
  constructor
  · simp [app_main_body, app_py_globals, ev100]
  · simp [app2_main_body, app2_handle_payment, ev100, MIN_INCOMING_XLM,
      app2_send_amount_100]
